import Mathlib

/-!
Verification of the PowerBI MCP server's authenticated API gateway
(`src/powerbi_server.py`).

The embedding models the decoded-JSON values the Python code manipulates,
the mutable `PowerBIContext` credential state, and the HTTP layer as an
oracle (`World`) mapping requests to outcomes; raised Python exceptions are
modelled with `Except String`.  Every gateway operation returns its result
envelope together with the updated context and the trace of network
requests it issued.
-/

/-- Decoded JSON values (the result of `response.json()` and the request
bodies the code builds).  Objects are association lists in key order, which
is how Python's `dict` preserves insertion order. -/
inductive Json where
  | null : Json
  | bool : Bool → Json
  | num : Int → Json
  | str : String → Json
  | arr : List Json → Json
  | obj : List (String × Json) → Json

/-- Python truthiness of a decoded JSON value (`if x:`): `None`, `False`,
`0`, `""`, `[]` and `{}` are falsy. -/
def jTruthy : Json → Bool
  | .null => false
  | .bool b => b
  | .num n => n != 0
  | .str s => s != ""
  | .arr xs => !xs.isEmpty
  | .obj kvs => !kvs.isEmpty

/-- Python truthiness of an `Optional[str]` (`None` and `""` are falsy). -/
def strTruthy : Option String → Bool
  | none => false
  | some s => s != ""

/-- A value usable as a number of seconds (`timedelta(seconds=...)`):
Python `int`, with `bool` accepted as its `int` subclass. -/
def pyNum : Json → Option Int
  | .num n => some n
  | .bool b => some (cond b 1 0)
  | _ => none

/-- `repr` of a Python string: quoted with backslash and quote escaping
(control-character escaping and Python's alternate-quote convention are not
modelled; no cell the claims touch is affected). -/
def pyStrRepr (s : String) : String :=
  "'" ++ ((s.replace "\\" "\\\\").replace "'" "\\'") ++ "'"

mutual

/-- `repr` of a decoded JSON value, as Python would print it inside
containers. -/
def pyRepr : Json → String
  | .null => "None"
  | .bool b => cond b "True" "False"
  | .num n => toString n
  | .str s => pyStrRepr s
  | .arr xs => "[" ++ String.intercalate ", " (pyReprList xs) ++ "]"
  | .obj kvs => "\x7b" ++ String.intercalate ", " (pyReprPairs kvs) ++ "\x7d"

def pyReprList : List Json → List String
  | [] => []
  | x :: xs => pyRepr x :: pyReprList xs

def pyReprPairs : List (String × Json) → List String
  | [] => []
  | (k, v) :: xs => (pyStrRepr k ++ ": " ++ pyRepr v) :: pyReprPairs xs

end

/-- Python `str()` of a decoded JSON value: a string is itself, scalars
print as `None` / `True` / `False` / decimal, containers via `repr`. -/
def pyStr : Json → String
  | .str s => s
  | j => pyRepr j

/-- `str()` / f-string rendering of an `Optional` value (`None` when absent). -/
def pyStrOptJson : Option Json → String
  | none => "None"
  | some j => pyStr j

/-- f-string rendering of an `Optional[str]`. -/
def pyStrOptStr : Option String → String
  | none => "None"
  | some s => s

/-- Key lookup in a JSON object, `none` when the key is missing or the
value is not an object.  Used to state properties of result envelopes. -/
def jlookup : Json → String → Option Json
  | .obj kvs, k => kvs.lookup k
  | _, _ => none

/-- Python subscripting `x[k]` with a string key: `KeyError` when absent,
`TypeError` when the value is not a dict. -/
def pyIndex : Json → String → Except String Json
  | .obj kvs, k =>
    match kvs.lookup k with
    | some v => .ok v
    | none => .error ("KeyError: " ++ k)
  | _, k => .error ("TypeError: not subscriptable: " ++ k)

/-- Python subscripting `x[i]` with an integer index on a decoded JSON
value: `IndexError` past the end, `TypeError` on non-sequences. -/
def pyIndexNat : Json → Nat → Except String Json
  | .arr xs, i =>
    match xs.get? i with
    | some v => .ok v
    | none => .error "IndexError: list index out of range"
  | _, _ => .error "TypeError: not subscriptable"

/-- Python `x.get(k, default)`: only dicts have `.get` (`AttributeError`
otherwise). -/
def pyGetE : Json → String → Json → Except String Json
  | .obj kvs, k, d => .ok ((kvs.lookup k).getD d)
  | _, _, _ => .error "AttributeError: object has no attribute get"

/-- Python `len()`: defined for lists, strings and dicts, `TypeError`
otherwise. -/
def pyLenE : Json → Except String Int
  | .arr xs => .ok (xs.length : Int)
  | .str s => .ok (s.length : Int)
  | .obj kvs => .ok (kvs.length : Int)
  | _ => .error "TypeError: object has no len"

/-- Python `dict` assignment `d[k] = v`: replaces the value in place when
the key exists (keeping its position), appends otherwise. -/
def dinsert : List (String × Json) → String → Json → List (String × Json)
  | [], k, v => [(k, v)]
  | (k', v') :: rest, k, v =>
    if k' == k then (k', v) :: rest else (k', v') :: dinsert rest k v

/-- Echo of an `Optional[str]` argument inside a result envelope. -/
def optJson : Option String → Json
  | none => .null
  | some s => .str s

/-- An HTTP response: status code plus the outcome of `response.json()`
(decoding can raise). -/
structure HttpResponse where
  status_code : Nat
  jsonBody : Except String Json

/-- The form-encoded POST `authenticate` sends to the identity provider's
token endpoint. -/
structure TokenRequest where
  url : String
  client_id : Option String
  client_secret : Option String
  scope : String
  grant_type : String
deriving DecidableEq

/-- A request issued against the analytics service by `_make_request`. -/
structure ApiRequest where
  method : String
  url : String
  headers : List (String × String)
  body : Option Json
  params : Option (List (String × Json))

/-- One issued network request (the trace element). -/
inductive Event where
  | tokenReq : TokenRequest → Event
  | apiReq : ApiRequest → Event

/-- The environment a call runs in: the current wall-clock time
(`datetime.now()`, in seconds) and the behaviour of the two remote
endpoints.  `.error` models a raised transport exception or
`raise_for_status`-visible failure path; the explicit status code lets
`raise_for_status` be modelled separately. -/
structure World where
  now : Int
  tokenApi : TokenRequest → Except String HttpResponse
  api : ApiRequest → Except String HttpResponse

/-- The `PowerBIContext` dataclass: credential configuration plus the
mutable token state. -/
structure PowerBIContext where
  access_token : Option Json := none
  tenant_id : Option String := none
  client_id : Option String := none
  client_secret : Option String := none
  base_url : String := "https://api.powerbi.com/v1.0/myorg"
  token_expires : Option Int := none

/-- `all([tenant_id, client_id, client_secret])`: every credential field
present and non-empty (Python truthiness). -/
def credsTruthy (ctx : PowerBIContext) : Bool :=
  strTruthy ctx.tenant_id && strTruthy ctx.client_id && strTruthy ctx.client_secret

/-- The cached-token check in `authenticate`:
`self.context.access_token and self.context.token_expires and
datetime.now() < self.context.token_expires` (a `datetime` is always
truthy). -/
def tokenCacheValid (ctx : PowerBIContext) (w : World) : Bool :=
  (match ctx.access_token with
   | some j => jTruthy j
   | none => false) &&
  (match ctx.token_expires with
   | some e => decide (w.now < e)
   | none => false)

/-- The token-exchange request `authenticate` builds: tenant-specific URL,
client credentials, the fixed PowerBI scope and the client-credentials
grant type. -/
def authRequest (ctx : PowerBIContext) : TokenRequest :=
  { url := "https://login.microsoftonline.com/" ++ pyStrOptStr ctx.tenant_id
      ++ "/oauth2/v2.0/token"
  , client_id := ctx.client_id
  , client_secret := ctx.client_secret
  , scope := "https://analysis.windows.net/powerbi/api/.default"
  , grant_type := "client_credentials" }

/-- `response.raise_for_status()`: httpx raises on any non-2xx status
(informational, redirect, client-error and server-error responses alike;
`is_success` is 200–299). -/
def raiseForStatus (r : HttpResponse) : Except String HttpResponse :=
  if 200 ≤ r.status_code ∧ r.status_code < 300 then .ok r
  else .error ("HTTP error " ++ toString r.status_code)

/-- `PowerBIClient.authenticate`: missing-credential check, cached-token
short-circuit, then the client-credentials exchange.  On success the body's
`access_token` is stored and the expiry set to now + `expires_in` − 60
(default 3600); every exception inside the `try` is caught and reported as
`False`.  Note the mutation order of the source: `access_token` is assigned
before `expires_in` is processed. -/
def authenticate (ctx : PowerBIContext) (w : World) :
    Bool × PowerBIContext × List Event :=
  if !credsTruthy ctx then (false, ctx, [])
  else if tokenCacheValid ctx w then (true, ctx, [])
  else
    let req := authRequest ctx
    match w.tokenApi req with
    | .error _ => (false, ctx, [.tokenReq req])
    | .ok resp =>
      match raiseForStatus resp with
      | .error _ => (false, ctx, [.tokenReq req])
      | .ok resp' =>
        match resp'.jsonBody with
        | .error _ => (false, ctx, [.tokenReq req])
        | .ok token_data =>
          match pyIndex token_data "access_token" with
          | .error _ => (false, ctx, [.tokenReq req])
          | .ok tok =>
            let ctx1 := { ctx with access_token := some tok }
            match pyGetE token_data "expires_in" (.num 3600) with
            | .error _ => (false, ctx1, [.tokenReq req])
            | .ok expiresJ =>
              match pyNum expiresJ with
              | none => (false, ctx1, [.tokenReq req])
              | some k =>
                (true, { ctx1 with token_expires := some (w.now + (k - 60)) },
                 [.tokenReq req])

/-- The headers `_make_request` sets on every API call. -/
def bearerHeaders (tok : Option Json) : List (String × String) :=
  [("Authorization", "Bearer " ++ pyStrOptJson tok),
   ("Content-Type", "application/json")]

/-- The request `_make_request` builds for a given method/endpoint. -/
def mkApiRequest (ctx : PowerBIContext) (method endpoint : String)
    (body : Option Json) (params : Option (List (String × Json))) : ApiRequest :=
  { method := method
  , url := ctx.base_url ++ endpoint
  , headers := bearerHeaders ctx.access_token
  , body := body
  , params := params }

/-- Issuing an `ApiRequest` against the service and applying
`raise_for_status`. -/
def doRequest (w : World) (req : ApiRequest) : Except String HttpResponse :=
  match w.api req with
  | .error e => .error e
  | .ok resp => raiseForStatus resp

/-- `PowerBIClient._make_request`: authenticate (raising
`"Failed to authenticate with PowerBI"` on failure), build the bearer-token
request against `base_url + endpoint`, send it and raise for status. -/
def makeRequest (ctx : PowerBIContext) (w : World) (method endpoint : String)
    (body : Option Json) (params : Option (List (String × Json))) :
    Except String HttpResponse × PowerBIContext × List Event :=
  match authenticate ctx w with
  | (false, ctx1, tr) => (.error "Failed to authenticate with PowerBI", ctx1, tr)
  | (true, ctx1, tr) =>
    let req := mkApiRequest ctx1 method endpoint body params
    (doRequest w req, ctx1, tr ++ [.apiReq req])

/-- The failure envelope every tool builds in its `except` handler:
`{"success": False, "error": str(e)}`. -/
def errEnv (e : String) : Json :=
  .obj [("success", .bool false), ("error", .str e)]

/-- The common tool body shape: issue one `_make_request`, decode
`response.json()`, build the success envelope; any raised exception is
caught at the tool boundary and reported as `errEnv`. -/
def wrap (r : Except String HttpResponse × PowerBIContext × List Event)
    (k : Json → Except String Json) : Json × PowerBIContext × List Event :=
  match r with
  | (.error e, ctx1, tr) => (errEnv e, ctx1, tr)
  | (.ok resp, ctx1, tr) =>
    match resp.jsonBody with
    | .error e => (errEnv e, ctx1, tr)
    | .ok j =>
      match k j with
      | .error e => (errEnv e, ctx1, tr)
      | .ok env => (env, ctx1, tr)

/-- `get_workspaces`: GET `/groups`, envelope with the `value` list and its
length. -/
def get_workspaces (ctx : PowerBIContext) (w : World) :
    Json × PowerBIContext × List Event :=
  wrap (makeRequest ctx w "GET" "/groups" none none) (fun workspaces => do
    let v ← pyGetE workspaces "value" (.arr [])
    let n ← pyLenE (← pyGetE workspaces "value" (.arr []))
    pure (Json.obj [("success", .bool true), ("workspaces", v),
      ("count", .num n)]))

/-- `get_datasets`: GET `/groups/{ws}/datasets` when a (truthy) workspace id
is supplied, else `/datasets`. -/
def get_datasets (ctx : PowerBIContext) (w : World)
    (workspace_id : Option String) : Json × PowerBIContext × List Event :=
  let endpoint :=
    if strTruthy workspace_id then
      "/groups/" ++ workspace_id.getD "" ++ "/datasets"
    else "/datasets"
  wrap (makeRequest ctx w "GET" endpoint none none) (fun datasets => do
    let v ← pyGetE datasets "value" (.arr [])
    let n ← pyLenE (← pyGetE datasets "value" (.arr []))
    pure (Json.obj [("success", .bool true), ("datasets", v),
      ("workspace_id", optJson workspace_id), ("count", .num n)]))

/-- `get_dataset`: GET the dataset, echoing the identifiers. -/
def get_dataset (ctx : PowerBIContext) (w : World) (dataset_id : String)
    (workspace_id : Option String) : Json × PowerBIContext × List Event :=
  let endpoint :=
    if strTruthy workspace_id then
      "/groups/" ++ workspace_id.getD "" ++ "/datasets/" ++ dataset_id
    else "/datasets/" ++ dataset_id
  wrap (makeRequest ctx w "GET" endpoint none none) (fun dataset =>
    pure (Json.obj [("success", .bool true), ("dataset", dataset),
      ("dataset_id", .str dataset_id), ("workspace_id", optJson workspace_id)]))

/-- `get_dataset_schema`: two sequential GETs (dataset info, then its
tables); the envelope carries both, with `tables` defaulting to `[]`. -/
def get_dataset_schema (ctx : PowerBIContext) (w : World) (dataset_id : String)
    (workspace_id : Option String) : Json × PowerBIContext × List Event :=
  let endpoint :=
    if strTruthy workspace_id then
      "/groups/" ++ workspace_id.getD "" ++ "/datasets/" ++ dataset_id
    else "/datasets/" ++ dataset_id
  match makeRequest ctx w "GET" endpoint none none with
  | (.error e, ctx1, tr1) => (errEnv e, ctx1, tr1)
  | (.ok resp, ctx1, tr1) =>
    match resp.jsonBody with
    | .error e => (errEnv e, ctx1, tr1)
    | .ok dataset_info =>
      let tables_endpoint :=
        if strTruthy workspace_id then
          "/groups/" ++ workspace_id.getD "" ++ "/datasets/" ++ dataset_id
            ++ "/tables"
        else "/datasets/" ++ dataset_id ++ "/tables"
      match makeRequest ctx1 w "GET" tables_endpoint none none with
      | (.error e, ctx2, tr2) => (errEnv e, ctx2, tr1 ++ tr2)
      | (.ok tablesResp, ctx2, tr2) =>
        match tablesResp.jsonBody with
        | .error e => (errEnv e, ctx2, tr1 ++ tr2)
        | .ok tablesJ =>
          match pyGetE tablesJ "value" (.arr []) with
          | .error e => (errEnv e, ctx2, tr1 ++ tr2)
          | .ok tv =>
            (Json.obj [("success", .bool true), ("dataset_info", dataset_info),
              ("tables", tv), ("dataset_id", .str dataset_id)],
             ctx2, tr1 ++ tr2)

/-- The body `query_dataset` POSTs:
`{queries: [{query: dax}], serializerSettings: {includeNulls: true}}`. -/
def queryBody (dax : String) : Json :=
  .obj [("queries", .arr [.obj [("query", .str dax)]]),
        ("serializerSettings", .obj [("includeNulls", .bool true)])]

/-- `query_dataset`: POST the DAX query to `executeQueries`, envelope
echoes the query and carries the raw decoded result. -/
def query_dataset (ctx : PowerBIContext) (w : World) (dataset_id dax_query : String)
    (workspace_id : Option String) : Json × PowerBIContext × List Event :=
  let endpoint :=
    if strTruthy workspace_id then
      "/groups/" ++ workspace_id.getD "" ++ "/datasets/" ++ dataset_id
        ++ "/executeQueries"
    else "/datasets/" ++ dataset_id ++ "/executeQueries"
  wrap (makeRequest ctx w "POST" endpoint (some (queryBody dax_query)) none)
    (fun result =>
      pure (Json.obj [("success", .bool true), ("query", .str dax_query),
        ("result", result), ("dataset_id", .str dataset_id)]))

/-- `refresh_dataset`: POST an empty body to `refreshes`; the envelope
reports the response's status code and does not decode a body. -/
def refresh_dataset (ctx : PowerBIContext) (w : World) (dataset_id : String)
    (workspace_id : Option String) : Json × PowerBIContext × List Event :=
  let endpoint :=
    if strTruthy workspace_id then
      "/groups/" ++ workspace_id.getD "" ++ "/datasets/" ++ dataset_id
        ++ "/refreshes"
    else "/datasets/" ++ dataset_id ++ "/refreshes"
  match makeRequest ctx w "POST" endpoint (some (.obj [])) none with
  | (.error e, ctx1, tr1) => (errEnv e, ctx1, tr1)
  | (.ok resp, ctx1, tr1) =>
    (Json.obj [("success", .bool true),
      ("message", .str "Dataset refresh initiated"),
      ("dataset_id", .str dataset_id),
      ("status_code", .num (resp.status_code : Int))], ctx1, tr1)

/-- `get_refresh_history`: GET `refreshes` with the `$top` query parameter
(default 5 at the tool surface). -/
def get_refresh_history (ctx : PowerBIContext) (w : World) (dataset_id : String)
    (workspace_id : Option String) (top : Int) :
    Json × PowerBIContext × List Event :=
  let endpoint :=
    if strTruthy workspace_id then
      "/groups/" ++ workspace_id.getD "" ++ "/datasets/" ++ dataset_id
        ++ "/refreshes"
    else "/datasets/" ++ dataset_id ++ "/refreshes"
  wrap (makeRequest ctx w "GET" endpoint none (some [("$top", .num top)]))
    (fun refresh_history => do
      let v ← pyGetE refresh_history "value" (.arr [])
      let n ← pyLenE (← pyGetE refresh_history "value" (.arr []))
      pure (Json.obj [("success", .bool true), ("refresh_history", v),
        ("dataset_id", .str dataset_id), ("count", .num n)]))

/-- `create_report`: POST `{name, datasetId}` to `/groups/{ws}/reports`
(workspace id is a required argument here). -/
def create_report (ctx : PowerBIContext) (w : World)
    (workspace_id dataset_id report_name : String) :
    Json × PowerBIContext × List Event :=
  let endpoint := "/groups/" ++ workspace_id ++ "/reports"
  let report_data := Json.obj [("name", .str report_name),
    ("datasetId", .str dataset_id)]
  wrap (makeRequest ctx w "POST" endpoint (some report_data) none)
    (fun report => do
      let rid ← pyGetE report "id" .null
      pure (Json.obj [("success", .bool true), ("report", report),
        ("report_id", rid), ("workspace_id", .str workspace_id)]))

/-- `get_reports`: GET `/groups/{ws}/reports` or `/reports`. -/
def get_reports (ctx : PowerBIContext) (w : World)
    (workspace_id : Option String) : Json × PowerBIContext × List Event :=
  let endpoint :=
    if strTruthy workspace_id then
      "/groups/" ++ workspace_id.getD "" ++ "/reports"
    else "/reports"
  wrap (makeRequest ctx w "GET" endpoint none none) (fun reports => do
    let v ← pyGetE reports "value" (.arr [])
    let n ← pyLenE (← pyGetE reports "value" (.arr []))
    pure (Json.obj [("success", .bool true), ("reports", v),
      ("workspace_id", optJson workspace_id), ("count", .num n)]))

/-- `create_calculated_column`: POST
`{name, dataType: "String", expression}` to the table's `columns`
collection; the data type is hard-coded. -/
def create_calculated_column (ctx : PowerBIContext) (w : World)
    (dataset_id table_name column_name dax_expression : String)
    (workspace_id : Option String) : Json × PowerBIContext × List Event :=
  let endpoint :=
    if strTruthy workspace_id then
      "/groups/" ++ workspace_id.getD "" ++ "/datasets/" ++ dataset_id
        ++ "/tables/" ++ table_name ++ "/columns"
    else "/datasets/" ++ dataset_id ++ "/tables/" ++ table_name ++ "/columns"
  let column_data := Json.obj [("name", .str column_name),
    ("dataType", .str "String"), ("expression", .str dax_expression)]
  wrap (makeRequest ctx w "POST" endpoint (some column_data) none)
    (fun column =>
      pure (Json.obj [("success", .bool true), ("column", column),
        ("table_name", .str table_name), ("dataset_id", .str dataset_id)]))

/-- `create_measure`: POST `{name, expression}` to the table's `measures`
collection. -/
def create_measure (ctx : PowerBIContext) (w : World)
    (dataset_id table_name measure_name dax_expression : String)
    (workspace_id : Option String) : Json × PowerBIContext × List Event :=
  let endpoint :=
    if strTruthy workspace_id then
      "/groups/" ++ workspace_id.getD "" ++ "/datasets/" ++ dataset_id
        ++ "/tables/" ++ table_name ++ "/measures"
    else "/datasets/" ++ dataset_id ++ "/tables/" ++ table_name ++ "/measures"
  let measure_data := Json.obj [("name", .str measure_name),
    ("expression", .str dax_expression)]
  wrap (makeRequest ctx w "POST" endpoint (some measure_data) none)
    (fun measure =>
      pure (Json.obj [("success", .bool true), ("measure", measure),
        ("table_name", .str table_name), ("dataset_id", .str dataset_id)]))

/-- The row-count DAX query `analyze_data_quality` builds per table:
`EVALUATE ROW("RowCount", COUNTROWS('<table>'))`. -/
def rowCountQuery (table_name : String) : String :=
  "EVALUATE ROW(\"RowCount\", COUNTROWS('" ++ table_name ++ "'))"

/-- The fixed extraction path for one row-count result:
`count_result["result"]["results"][0]["tables"][0]["rows"][0]["[RowCount]"]`. -/
def extractRowCount (countRes : Json) : Except String Json :=
  pyIndex countRes "result" >>= (pyIndex · "results") >>= (pyIndexNat · 0)
    >>= (pyIndex · "tables") >>= (pyIndexNat · 0) >>= (pyIndex · "rows")
    >>= (pyIndexNat · 0) >>= (pyIndex · "[RowCount]")

/-- The per-table entry `analyze_data_quality` records, given the table's
schema object and the envelope its row-count query returned: on a
successful query, the row count at the fixed path together with the
column and measure counts (`"Query execution failed"` if any of that
extraction raises, caught by the bare `except`); on a failed query,
`"Could not analyze table"`. -/
def entryOfCount (table countRes : Json) : Json :=
  match jlookup countRes "success" with
  | none => Json.obj [("error", .str "Query execution failed")]
  | some s =>
    if jTruthy s then
      match (do
        let rc ← extractRowCount countRes
        let c ← pyLenE (← pyGetE table "columns" (.arr []))
        let m ← pyLenE (← pyGetE table "measures" (.arr []))
        pure (Json.obj [("row_count", rc), ("columns", .num c),
          ("measures", .num m)]) : Except String Json) with
      | .ok entry => entry
      | .error _ => Json.obj [("error", .str "Query execution failed")]
    else Json.obj [("error", .str "Could not analyze table")]

/-- The entry recorded for a named table when the analysis loop runs from
state `ctx`: the outcome of its own row-count query, summarised by
`entryOfCount`. -/
def tableEntry (w : World) (ctx : PowerBIContext) (dataset_id : String)
    (workspace_id : Option String) (table : Json) (name : String) : Json :=
  entryOfCount table
    (query_dataset ctx w dataset_id (rowCountQuery name) workspace_id).1

/-- The `for table in tables` loop of `analyze_data_quality`: per table,
read its `name`, run the row-count query, record the entry under that name
and continue; a failure outside the inner `try` (a table without a string
`name`) escapes to the tool's outer handler. -/
def analyzeTables (w : World) (dataset_id : String)
    (workspace_id : Option String) :
    List Json → PowerBIContext → List Event → List (String × Json) →
    Except String (List (String × Json)) × PowerBIContext × List Event
  | [], ctx, tr, acc => (.ok acc, ctx, tr)
  | table :: rest, ctx, tr, acc =>
    match pyIndex table "name" with
    | .error e => (.error e, ctx, tr)
    | .ok nameJ =>
      match nameJ with
      | .str table_name =>
        match query_dataset ctx w dataset_id (rowCountQuery table_name)
            workspace_id with
        | (countRes, ctx1, tr1) =>
          analyzeTables w dataset_id workspace_id rest ctx1 (tr ++ tr1)
            (dinsert acc table_name (entryOfCount table countRes))
      | _ => (.error "TypeError: unhashable or non-string table name", ctx, tr)

/-- `analyze_data_quality`: fetch the schema (returning its envelope
unchanged if that fails), then analyse each listed table in order,
tolerating per-table failures; the envelope carries the per-table map and
the total table count. -/
def analyze_data_quality (ctx : PowerBIContext) (w : World)
    (dataset_id : String) (workspace_id : Option String) :
    Json × PowerBIContext × List Event :=
  match get_dataset_schema ctx w dataset_id workspace_id with
  | (schemaRes, ctx1, tr1) =>
    match jlookup schemaRes "success" with
    | none => (errEnv "KeyError: success", ctx1, tr1)
    | some s =>
      if !jTruthy s then (schemaRes, ctx1, tr1)
      else
        match pyIndex schemaRes "tables" with
        | .error e => (errEnv e, ctx1, tr1)
        | .ok (Json.arr tables) =>
          match analyzeTables w dataset_id workspace_id tables ctx1 tr1 [] with
          | (.ok qa, ctx2, tr2) =>
            (Json.obj [("success", .bool true),
              ("dataset_id", .str dataset_id),
              ("quality_analysis", .obj qa),
              ("total_tables", .num (tables.length : Int))], ctx2, tr2)
          | (.error e, ctx2, tr2) => (errEnv e, ctx2, tr2)
        | .ok (Json.str st) =>
          -- `for table in tables` iterates a string's characters: an empty
          -- string means zero iterations and a success envelope; otherwise
          -- the first character's `table["name"]` raises outside the inner
          -- `try` and is caught by the tool's outer handler
          if st.isEmpty then
            (Json.obj [("success", .bool true),
              ("dataset_id", .str dataset_id),
              ("quality_analysis", .obj []),
              ("total_tables", .num (st.length : Int))], ctx1, tr1)
          else
            (errEnv "TypeError: string indices must be integers", ctx1, tr1)
        | .ok (Json.obj kvs) =>
          -- iterating a dict yields its string keys, with the same two
          -- outcomes as a string
          if kvs.isEmpty then
            (Json.obj [("success", .bool true),
              ("dataset_id", .str dataset_id),
              ("quality_analysis", .obj []),
              ("total_tables", .num (kvs.length : Int))], ctx1, tr1)
          else
            (errEnv "TypeError: string indices must be integers", ctx1, tr1)
        | .ok _ => (errEnv "TypeError: not iterable", ctx1, tr1)

/-- The DAX query `export_data_to_csv` builds:
`EVALUATE TOPN(<max_rows>, '<table_name>')`. -/
def exportDax (max_rows : Int) (table_name : String) : String :=
  "EVALUATE TOPN(" ++ toString max_rows ++ ", '" ++ table_name ++ "')"

/-- The row extraction of `export_data_to_csv`:
`result["results"][0]["tables"][0]["rows"]` applied to the envelope's
`result` value. -/
def extractRowsJ (result : Json) : Except String Json :=
  pyIndex result "results" >>= (pyIndexNat · 0) >>= (pyIndex · "tables")
    >>= (pyIndexNat · 0) >>= (pyIndex · "rows")

/-- `.replace(",", ";")` on a Python string: the pattern is the single
character `,`, so the call replaces every comma character by a semicolon. -/
def replaceCommas (s : String) : String :=
  ⟨s.data.map (fun ch => if ch = ',' then ';' else ch)⟩

/-- One CSV cell: `str(row.get(col, "")).replace(",", ";")` — the value is
stringified and every comma in it replaced by a semicolon. -/
def serializeCell (row : List (String × Json)) (col : String) : String :=
  replaceCommas (pyStr ((row.lookup col).getD (Json.str "")))

/-- One CSV line: the comma-joined serialized cells of a row, in header
order. -/
def serializeRow (columns : List String) (row : List (String × Json)) : String :=
  String.intercalate "," (columns.map (serializeCell row))

/-- The per-row serialization loop; a row that is not a dict raises
(`row.get` missing), which the tool's handler catches. -/
def serializeRows (columns : List String) :
    List Json → Except String (List String)
  | [] => .ok []
  | Json.obj row :: rest => do
    pure (serializeRow columns row :: (← serializeRows columns rest))
  | _ :: _ => .error "AttributeError: object has no attribute get"

/-- `export_data_to_csv`: run the TOPN query (returning its failure
envelope unchanged if it fails), extract the rows at the fixed path, and
serialize a header line plus one line per row; an empty row list yields
success with empty content. -/
def export_data_to_csv (ctx : PowerBIContext) (w : World)
    (dataset_id table_name : String) (workspace_id : Option String)
    (max_rows : Int) : Json × PowerBIContext × List Event :=
  match query_dataset ctx w dataset_id (exportDax max_rows table_name)
      workspace_id with
  | (queryRes, ctx1, tr1) =>
    match jlookup queryRes "success" with
    | none => (errEnv "KeyError: success", ctx1, tr1)
    | some s =>
      if !jTruthy s then (queryRes, ctx1, tr1)
      else
        match pyIndex queryRes "result" >>= extractRowsJ with
        | .error e => (errEnv e, ctx1, tr1)
        | .ok rowsJ =>
          if jTruthy rowsJ then
            match pyIndexNat rowsJ 0 with
            | .error e => (errEnv e, ctx1, tr1)
            | .ok r0 =>
              match r0 with
              | Json.obj row0 =>
                let columns := row0.map Prod.fst
                match rowsJ with
                | Json.arr rows =>
                  match serializeRows columns rows with
                  | .error e => (errEnv e, ctx1, tr1)
                  | .ok lines =>
                    let csv_content := String.intercalate "\n"
                      (String.intercalate "," columns :: lines)
                    (Json.obj [("success", .bool true),
                      ("csv_content", .str csv_content),
                      ("row_count", .num (rows.length : Int)),
                      ("column_count", .num (columns.length : Int)),
                      ("table_name", .str table_name)], ctx1, tr1)
                | _ => (errEnv "TypeError: not iterable", ctx1, tr1)
              | _ => (errEnv "AttributeError: object has no attribute keys",
                  ctx1, tr1)
          else
            (Json.obj [("success", .bool true), ("csv_content", .str ""),
              ("row_count", .num 0),
              ("message", .str "No data found in table")], ctx1, tr1)

/-- Modelled from the spec: the column order of the CSV export is the key
order of the first row. -/
def specCsvColumns : List Json → List String
  | Json.obj kvs :: _ => kvs.map Prod.fst
  | _ => []

/-- Modelled from the spec: one serialized CSV line — each cell value is
stringified and any literal comma in it replaced with a semicolon, then
the cells are comma-joined in header order. -/
def specLine (columns : List String) (row : Json) : String :=
  String.intercalate "," (columns.map fun c =>
    replaceCommas (pyStr ((jlookup row c).getD (Json.str ""))))

/-- Modelled from the spec: the exported text — a header line of the
comma-joined column names followed by one serialized line per row. -/
def specCsvContent (rows : List Json) : String :=
  String.intercalate "\n"
    (String.intercalate "," (specCsvColumns rows) ::
      rows.map (specLine (specCsvColumns rows)))

/-- The uniform Result Envelope contract: a boolean `success` flag, with
the operation's payload field populated and no error on success, and an
error string and no payload on failure. -/
def envOk (payload : String) (j : Json) : Prop :=
  ∃ b : Bool, jlookup j "success" = some (.bool b) ∧
    (b = true → (jlookup j payload).isSome = true ∧ jlookup j "error" = none) ∧
    (b = false →
      (∃ e, jlookup j "error" = some (.str e)) ∧ jlookup j payload = none)

theorem auth_cache_hit (ctx : PowerBIContext) (w : World)
    (hc : credsTruthy ctx = true) (ht : tokenCacheValid ctx w = true) :
    authenticate ctx w = (true, ctx, []) := by
  simp [authenticate, hc, ht]

theorem makeRequest_cached (ctx : PowerBIContext) (w : World)
    (m ep : String) (b : Option Json) (p : Option (List (String × Json)))
    (hc : credsTruthy ctx = true) (ht : tokenCacheValid ctx w = true) :
    makeRequest ctx w m ep b p =
      (doRequest w (mkApiRequest ctx m ep b p), ctx,
       [.apiReq (mkApiRequest ctx m ep b p)]) := by
  unfold makeRequest
  rw [auth_cache_hit ctx w hc ht]
  rfl

theorem wrap_state (r : Except String HttpResponse × PowerBIContext × List Event)
    (k : Json → Except String Json) : (wrap r k).2 = r.2 := by
  unfold wrap
  rcases r with ⟨res, ctx1, tr⟩
  cases res with
  | error e => rfl
  | ok resp =>
    cases h : resp.jsonBody with
    | error e => simp [h]
    | ok j =>
      cases hk : k j with
      | error e => simp [h, hk]
      | ok env => simp [h, hk]

theorem wrap_shape (r : Except String HttpResponse × PowerBIContext × List Event)
    (k : Json → Except String Json) :
    (∃ j env, k j = .ok env ∧ (wrap r k).1 = env) ∨
      ∃ e, (wrap r k).1 = errEnv e := by
  unfold wrap
  rcases r with ⟨res, ctx1, tr⟩
  cases res with
  | error e => exact .inr ⟨e, rfl⟩
  | ok resp =>
    cases h : resp.jsonBody with
    | error e => exact .inr ⟨e, by simp [h]⟩
    | ok j =>
      cases hk : k j with
      | error e => exact .inr ⟨e, by simp [h, hk]⟩
      | ok env => exact .inl ⟨j, env, hk, by simp [h, hk]⟩

@[simp] theorem exceptBindOk {α β : Type} (a : α) (f : α → Except String β) :
    (Except.ok a : Except String α) >>= f = f a := rfl

@[simp] theorem exceptBindError {α β : Type} (e : String)
    (f : α → Except String β) :
    (Except.error e : Except String α) >>= f = Except.error e := rfl

@[simp] theorem exceptPure {α : Type} (a : α) :
    (pure a : Except String α) = Except.ok a := rfl

theorem envOk_errEnv_lit (payload e : String)
    (h : jlookup (errEnv e) payload = none) :
    envOk payload (errEnv e) :=
  ⟨false, rfl, fun hb => Bool.noConfusion hb, fun _ => ⟨⟨e, rfl⟩, h⟩⟩

theorem envOk_get_workspaces (ctx : PowerBIContext) (w : World) :
    envOk "workspaces" (get_workspaces ctx w).1 := by
  unfold get_workspaces
  rcases wrap_shape (makeRequest ctx w "GET" "/groups" none none) _ with
    ⟨j, env, hk, hres⟩ | ⟨e, hres⟩
  · rw [hres]
    cases hv : pyGetE j "value" (Json.arr []) with
    | error e => simp [hv] at hk
    | ok v =>
      cases hl : pyLenE v with
      | error e => simp [hv, hl] at hk
      | ok n =>
        simp [hv, hl] at hk
        rw [← hk]
        exact ⟨true, rfl, fun _ => ⟨rfl, rfl⟩, fun h => Bool.noConfusion h⟩
  · rw [hres]
    exact envOk_errEnv_lit _ e rfl

theorem envOk_wrap (payload : String)
    (r : Except String HttpResponse × PowerBIContext × List Event)
    (k : Json → Except String Json)
    (hcont : ∀ j env, k j = .ok env → envOk payload env)
    (herr : ∀ e, envOk payload (errEnv e)) :
    envOk payload (wrap r k).1 := by
  rcases wrap_shape r k with ⟨j, env, hk, hres⟩ | ⟨e, hres⟩
  · rw [hres]; exact hcont j env hk
  · rw [hres]; exact herr e

theorem envOk_get_datasets (ctx : PowerBIContext) (w : World)
    (wid : Option String) : envOk "datasets" (get_datasets ctx w wid).1 := by
  simp only [get_datasets]
  refine envOk_wrap _ _ _ ?_ (fun e => envOk_errEnv_lit _ e rfl)
  intro j env hk
  cases hv : pyGetE j "value" (Json.arr []) with
  | error e => simp [hv] at hk
  | ok v =>
    cases hl : pyLenE v with
    | error e => simp [hv, hl] at hk
    | ok n =>
      simp [hv, hl] at hk
      rw [← hk]
      exact ⟨true, rfl, fun _ => ⟨rfl, rfl⟩, fun h => Bool.noConfusion h⟩

theorem envOk_get_dataset (ctx : PowerBIContext) (w : World) (did : String)
    (wid : Option String) : envOk "dataset" (get_dataset ctx w did wid).1 := by
  simp only [get_dataset]
  refine envOk_wrap _ _ _ ?_ (fun e => envOk_errEnv_lit _ e rfl)
  intro j env hk
  simp at hk
  rw [← hk]
  exact ⟨true, rfl, fun _ => ⟨rfl, rfl⟩, fun h => Bool.noConfusion h⟩

theorem envOk_query_dataset (ctx : PowerBIContext) (w : World)
    (did dax : String) (wid : Option String) :
    envOk "result" (query_dataset ctx w did dax wid).1 := by
  simp only [query_dataset]
  refine envOk_wrap _ _ _ ?_ (fun e => envOk_errEnv_lit _ e rfl)
  intro j env hk
  simp at hk
  rw [← hk]
  exact ⟨true, rfl, fun _ => ⟨rfl, rfl⟩, fun h => Bool.noConfusion h⟩

theorem envOk_get_refresh_history (ctx : PowerBIContext) (w : World)
    (did : String) (wid : Option String) (top : Int) :
    envOk "refresh_history" (get_refresh_history ctx w did wid top).1 := by
  simp only [get_refresh_history]
  refine envOk_wrap _ _ _ ?_ (fun e => envOk_errEnv_lit _ e rfl)
  intro j env hk
  cases hv : pyGetE j "value" (Json.arr []) with
  | error e => simp [hv] at hk
  | ok v =>
    cases hl : pyLenE v with
    | error e => simp [hv, hl] at hk
    | ok n =>
      simp [hv, hl] at hk
      rw [← hk]
      exact ⟨true, rfl, fun _ => ⟨rfl, rfl⟩, fun h => Bool.noConfusion h⟩

theorem envOk_get_reports (ctx : PowerBIContext) (w : World)
    (wid : Option String) : envOk "reports" (get_reports ctx w wid).1 := by
  simp only [get_reports]
  refine envOk_wrap _ _ _ ?_ (fun e => envOk_errEnv_lit _ e rfl)
  intro j env hk
  cases hv : pyGetE j "value" (Json.arr []) with
  | error e => simp [hv] at hk
  | ok v =>
    cases hl : pyLenE v with
    | error e => simp [hv, hl] at hk
    | ok n =>
      simp [hv, hl] at hk
      rw [← hk]
      exact ⟨true, rfl, fun _ => ⟨rfl, rfl⟩, fun h => Bool.noConfusion h⟩

theorem envOk_create_report (ctx : PowerBIContext) (w : World)
    (wid did rname : String) :
    envOk "report" (create_report ctx w wid did rname).1 := by
  simp only [create_report]
  refine envOk_wrap _ _ _ ?_ (fun e => envOk_errEnv_lit _ e rfl)
  intro j env hk
  cases hv : pyGetE j "id" Json.null with
  | error e => simp [hv] at hk
  | ok rid =>
    simp [hv] at hk
    rw [← hk]
    exact ⟨true, rfl, fun _ => ⟨rfl, rfl⟩, fun h => Bool.noConfusion h⟩

theorem envOk_create_calculated_column (ctx : PowerBIContext) (w : World)
    (did tname cname dax : String) (wid : Option String) :
    envOk "column" (create_calculated_column ctx w did tname cname dax wid).1 := by
  simp only [create_calculated_column]
  refine envOk_wrap _ _ _ ?_ (fun e => envOk_errEnv_lit _ e rfl)
  intro j env hk
  simp at hk
  rw [← hk]
  exact ⟨true, rfl, fun _ => ⟨rfl, rfl⟩, fun h => Bool.noConfusion h⟩

theorem envOk_create_measure (ctx : PowerBIContext) (w : World)
    (did tname mname dax : String) (wid : Option String) :
    envOk "measure" (create_measure ctx w did tname mname dax wid).1 := by
  simp only [create_measure]
  refine envOk_wrap _ _ _ ?_ (fun e => envOk_errEnv_lit _ e rfl)
  intro j env hk
  simp at hk
  rw [← hk]
  exact ⟨true, rfl, fun _ => ⟨rfl, rfl⟩, fun h => Bool.noConfusion h⟩

theorem envOk_refresh_dataset (ctx : PowerBIContext) (w : World)
    (did : String) (wid : Option String) :
    envOk "message" (refresh_dataset ctx w did wid).1 := by
  simp only [refresh_dataset]
  split
  · exact envOk_errEnv_lit _ _ rfl
  · exact ⟨true, rfl, fun _ => ⟨rfl, rfl⟩, fun h => Bool.noConfusion h⟩

theorem envOk_get_dataset_schema (ctx : PowerBIContext) (w : World)
    (did : String) (wid : Option String) :
    envOk "tables" (get_dataset_schema ctx w did wid).1 := by
  simp only [get_dataset_schema]
  repeat' split
  all_goals
    first
      | exact envOk_errEnv_lit _ _ rfl
      | exact ⟨true, rfl, fun _ => ⟨rfl, rfl⟩, fun h => Bool.noConfusion h⟩

theorem get_dataset_schema_shape (ctx : PowerBIContext) (w : World)
    (did : String) (wid : Option String) :
    (∃ di tv, (get_dataset_schema ctx w did wid).1 =
      Json.obj [("success", .bool true), ("dataset_info", di), ("tables", tv),
        ("dataset_id", .str did)]) ∨
      ∃ e, (get_dataset_schema ctx w did wid).1 = errEnv e := by
  simp only [get_dataset_schema]
  repeat' split
  all_goals
    first
      | exact .inr ⟨_, rfl⟩
      | exact .inl ⟨_, _, rfl⟩

theorem query_dataset_shape (ctx : PowerBIContext) (w : World)
    (did dax : String) (wid : Option String) :
    (∃ res, (query_dataset ctx w did dax wid).1 =
      Json.obj [("success", .bool true), ("query", .str dax), ("result", res),
        ("dataset_id", .str did)]) ∨
      ∃ e, (query_dataset ctx w did dax wid).1 = errEnv e := by
  simp only [query_dataset]
  rcases wrap_shape _ _ with ⟨j, env, hk, hres⟩ | ⟨e, hres⟩
  · rw [hres]
    simp at hk
    exact .inl ⟨j, hk.symm⟩
  · rw [hres]
    exact .inr ⟨e, rfl⟩

theorem envOk_analyze_data_quality (ctx : PowerBIContext) (w : World)
    (did : String) (wid : Option String) :
    envOk "quality_analysis" (analyze_data_quality ctx w did wid).1 := by
  have hshape := get_dataset_schema_shape ctx w did wid
  rcases hs : get_dataset_schema ctx w did wid with ⟨schemaRes, ctx1, tr1⟩
  rw [hs] at hshape
  simp only [analyze_data_quality, hs]
  rcases hshape with ⟨di, tv, hsr⟩ | ⟨e, hsr⟩
  · subst hsr
    simp only [jlookup, List.lookup]
    norm_num [jTruthy]
    cases htv : pyIndex
        (Json.obj [("success", Json.bool true), ("dataset_info", di),
          ("tables", tv), ("dataset_id", Json.str did)]) "tables" with
    | error e => exact envOk_errEnv_lit _ _ rfl
    | ok tvv =>
      cases tvv with
      | arr tables =>
        rcases ha : analyzeTables w did wid tables ctx1 tr1 [] with ⟨ares, ctx2, tr2⟩
        simp only [ha]
        cases ares with
        | error e => exact envOk_errEnv_lit _ _ rfl
        | ok qa => exact ⟨true, rfl, fun _ => ⟨rfl, rfl⟩, fun h => Bool.noConfusion h⟩
      | null => exact envOk_errEnv_lit _ _ rfl
      | bool b => exact envOk_errEnv_lit _ _ rfl
      | num n => exact envOk_errEnv_lit _ _ rfl
      | str st =>
        by_cases hemp : st.isEmpty = true
        · simp only [hemp, if_true]
          exact ⟨true, rfl, fun _ => ⟨rfl, rfl⟩, fun h => Bool.noConfusion h⟩
        · simp only [Bool.not_eq_true] at hemp
          simp only [hemp, Bool.false_eq_true, if_false]
          exact envOk_errEnv_lit _ _ rfl
      | obj kvs =>
        by_cases hemp : kvs.isEmpty = true
        · simp only [hemp, if_true]
          exact ⟨true, rfl, fun _ => ⟨rfl, rfl⟩, fun h => Bool.noConfusion h⟩
        · simp only [Bool.not_eq_true] at hemp
          simp only [hemp, Bool.false_eq_true, if_false]
          exact envOk_errEnv_lit _ _ rfl
  · subst hsr
    simp only [errEnv, jlookup, List.lookup]
    norm_num [jTruthy]
    exact envOk_errEnv_lit _ _ rfl

@[simp] theorem jlookup_nil (k : String) : jlookup (Json.obj []) k = none := rfl

@[simp] theorem jlookup_cons (k k' : String) (v : Json)
    (kvs : List (String × Json)) :
    jlookup (Json.obj ((k', v) :: kvs)) k =
      if k = k' then some v else jlookup (Json.obj kvs) k := by
  by_cases h : k = k'
  · subst h; simp [jlookup, List.lookup]
  · simp only [jlookup, List.lookup]
    rw [if_neg h]
    have hb : (k == k') = false := by simpa using h
    rw [hb]

theorem envOk_export_data_to_csv (ctx : PowerBIContext) (w : World)
    (did tname : String) (wid : Option String) (max_rows : Int) :
    envOk "csv_content" (export_data_to_csv ctx w did tname wid max_rows).1 := by
  have hshape := query_dataset_shape ctx w did (exportDax max_rows tname) wid
  rcases hq : query_dataset ctx w did (exportDax max_rows tname) wid with
    ⟨queryRes, ctx1, tr1⟩
  rw [hq] at hshape
  simp only [export_data_to_csv, hq]
  repeat' split
  all_goals try exact envOk_errEnv_lit _ _ rfl
  all_goals
    try exact ⟨true, rfl, fun _ => ⟨rfl, rfl⟩, fun h => Bool.noConfusion h⟩
  all_goals
    rcases hshape with ⟨res, hqr⟩ | ⟨e, hqr⟩
  all_goals subst hqr
  all_goals try exact envOk_errEnv_lit _ _ rfl
  rename_i hjt heq
  simp at heq
  subst heq
  simp [jTruthy] at hjt

/-- C2: every public gateway operation — the eleven primitive tools and the
two composed tools — returns, for every input and every outcome of the
underlying HTTP calls (including raised exceptions), a result dictionary
carrying a boolean `success` flag, with exactly one of the
operation-specific payload field (on success) or the error string (on
failure) populated; nothing ever propagates as an unhandled exception, as
witnessed by these operations being total functions into envelopes. -/
theorem gateway_envelope_contract :
    (∀ ctx w, envOk "workspaces" (get_workspaces ctx w).1) ∧
    (∀ ctx w wid, envOk "datasets" (get_datasets ctx w wid).1) ∧
    (∀ ctx w did wid, envOk "dataset" (get_dataset ctx w did wid).1) ∧
    (∀ ctx w did wid, envOk "tables" (get_dataset_schema ctx w did wid).1) ∧
    (∀ ctx w did dax wid, envOk "result" (query_dataset ctx w did dax wid).1) ∧
    (∀ ctx w did wid, envOk "message" (refresh_dataset ctx w did wid).1) ∧
    (∀ ctx w did wid top,
      envOk "refresh_history" (get_refresh_history ctx w did wid top).1) ∧
    (∀ ctx w ws did rn, envOk "report" (create_report ctx w ws did rn).1) ∧
    (∀ ctx w wid, envOk "reports" (get_reports ctx w wid).1) ∧
    (∀ ctx w did tn cn dax wid,
      envOk "column" (create_calculated_column ctx w did tn cn dax wid).1) ∧
    (∀ ctx w did tn mn dax wid,
      envOk "measure" (create_measure ctx w did tn mn dax wid).1) ∧
    (∀ ctx w did wid,
      envOk "quality_analysis" (analyze_data_quality ctx w did wid).1) ∧
    (∀ ctx w did tn wid mr,
      envOk "csv_content" (export_data_to_csv ctx w did tn wid mr).1) :=
  ⟨envOk_get_workspaces, envOk_get_datasets, envOk_get_dataset,
   envOk_get_dataset_schema, envOk_query_dataset, envOk_refresh_dataset,
   envOk_get_refresh_history, envOk_create_report, envOk_get_reports,
   envOk_create_calculated_column, envOk_create_measure,
   envOk_analyze_data_quality, envOk_export_data_to_csv⟩

/-- A configured context holding a live cached token (shared concrete
fixture). -/
def ctxTok : PowerBIContext :=
  { access_token := some (.str "tok"), tenant_id := some "tenant"
  , client_id := some "client", client_secret := some "secret"
  , token_expires := some 100 }

/-- A world whose endpoints are all unreachable (shared concrete fixture). -/
def wOffline : World :=
  { now := 0, tokenApi := fun _ => .error "offline"
  , api := fun _ => .error "offline" }

theorem gateway_envelope_contract_witness :
    envOk "workspaces" (get_workspaces ctxTok wOffline).1 :=
  gateway_envelope_contract.1 ctxTok wOffline

theorem authenticate_no_creds (ctx : PowerBIContext) (w : World)
    (h : credsTruthy ctx = false) : authenticate ctx w = (false, ctx, []) := by
  simp [authenticate, h]

theorem makeRequest_no_creds (ctx : PowerBIContext) (w : World)
    (h : credsTruthy ctx = false) (m ep : String) (b : Option Json)
    (p : Option (List (String × Json))) :
    makeRequest ctx w m ep b p =
      (.error "Failed to authenticate with PowerBI", ctx, []) := by
  unfold makeRequest
  rw [authenticate_no_creds ctx w h]

theorem get_workspaces_no_creds (ctx : PowerBIContext) (w : World)
    (h : credsTruthy ctx = false) :
    get_workspaces ctx w = (errEnv "Failed to authenticate with PowerBI", ctx, []) := by
  simp only [get_workspaces, makeRequest_no_creds ctx w h]
  rfl

theorem get_datasets_no_creds (ctx : PowerBIContext) (w : World)
    (wid : Option String) (h : credsTruthy ctx = false) :
    get_datasets ctx w wid = (errEnv "Failed to authenticate with PowerBI", ctx, []) := by
  simp only [get_datasets, makeRequest_no_creds ctx w h]
  rfl

theorem get_dataset_no_creds (ctx : PowerBIContext) (w : World) (did : String)
    (wid : Option String) (h : credsTruthy ctx = false) :
    get_dataset ctx w did wid = (errEnv "Failed to authenticate with PowerBI", ctx, []) := by
  simp only [get_dataset, makeRequest_no_creds ctx w h]
  rfl

theorem get_dataset_schema_no_creds (ctx : PowerBIContext) (w : World)
    (did : String) (wid : Option String) (h : credsTruthy ctx = false) :
    get_dataset_schema ctx w did wid =
      (errEnv "Failed to authenticate with PowerBI", ctx, []) := by
  simp only [get_dataset_schema, makeRequest_no_creds ctx w h]

theorem query_dataset_no_creds (ctx : PowerBIContext) (w : World)
    (did dax : String) (wid : Option String) (h : credsTruthy ctx = false) :
    query_dataset ctx w did dax wid =
      (errEnv "Failed to authenticate with PowerBI", ctx, []) := by
  simp only [query_dataset, makeRequest_no_creds ctx w h]
  rfl

theorem refresh_dataset_no_creds (ctx : PowerBIContext) (w : World)
    (did : String) (wid : Option String) (h : credsTruthy ctx = false) :
    refresh_dataset ctx w did wid =
      (errEnv "Failed to authenticate with PowerBI", ctx, []) := by
  simp only [refresh_dataset, makeRequest_no_creds ctx w h]

theorem get_refresh_history_no_creds (ctx : PowerBIContext) (w : World)
    (did : String) (wid : Option String) (top : Int)
    (h : credsTruthy ctx = false) :
    get_refresh_history ctx w did wid top =
      (errEnv "Failed to authenticate with PowerBI", ctx, []) := by
  simp only [get_refresh_history, makeRequest_no_creds ctx w h]
  rfl

theorem create_report_no_creds (ctx : PowerBIContext) (w : World)
    (ws did rn : String) (h : credsTruthy ctx = false) :
    create_report ctx w ws did rn =
      (errEnv "Failed to authenticate with PowerBI", ctx, []) := by
  simp only [create_report, makeRequest_no_creds ctx w h]
  rfl

theorem get_reports_no_creds (ctx : PowerBIContext) (w : World)
    (wid : Option String) (h : credsTruthy ctx = false) :
    get_reports ctx w wid =
      (errEnv "Failed to authenticate with PowerBI", ctx, []) := by
  simp only [get_reports, makeRequest_no_creds ctx w h]
  rfl

theorem create_calculated_column_no_creds (ctx : PowerBIContext) (w : World)
    (did tn cn dax : String) (wid : Option String)
    (h : credsTruthy ctx = false) :
    create_calculated_column ctx w did tn cn dax wid =
      (errEnv "Failed to authenticate with PowerBI", ctx, []) := by
  simp only [create_calculated_column, makeRequest_no_creds ctx w h]
  rfl

theorem create_measure_no_creds (ctx : PowerBIContext) (w : World)
    (did tn mn dax : String) (wid : Option String)
    (h : credsTruthy ctx = false) :
    create_measure ctx w did tn mn dax wid =
      (errEnv "Failed to authenticate with PowerBI", ctx, []) := by
  simp only [create_measure, makeRequest_no_creds ctx w h]
  rfl

theorem analyze_data_quality_no_creds (ctx : PowerBIContext) (w : World)
    (did : String) (wid : Option String) (h : credsTruthy ctx = false) :
    analyze_data_quality ctx w did wid =
      (errEnv "Failed to authenticate with PowerBI", ctx, []) := by
  simp only [analyze_data_quality, get_dataset_schema_no_creds ctx w did wid h]
  rfl

theorem export_data_to_csv_no_creds (ctx : PowerBIContext) (w : World)
    (did tn : String) (wid : Option String) (mr : Int)
    (h : credsTruthy ctx = false) :
    export_data_to_csv ctx w did tn wid mr =
      (errEnv "Failed to authenticate with PowerBI", ctx, []) := by
  simp only [export_data_to_csv, query_dataset_no_creds ctx w did
    (exportDax mr tn) wid h]
  rfl

/-- C4: when any of the tenant identifier, client identifier or client
secret is absent (or empty), every gateway operation fails — the envelope
reports `success = False` with the authentication-failure message as its
error string (the failure the spec labels
`AuthenticationError("missing credentials")`) — and the trace of issued
network requests is empty: no token exchange and no analytics-service
request is attempted. -/
theorem missing_credentials_fail_without_network (ctx : PowerBIContext)
    (h : credsTruthy ctx = false) :
    (∀ w, get_workspaces ctx w =
      (errEnv "Failed to authenticate with PowerBI", ctx, [])) ∧
    (∀ w wid, get_datasets ctx w wid =
      (errEnv "Failed to authenticate with PowerBI", ctx, [])) ∧
    (∀ w did wid, get_dataset ctx w did wid =
      (errEnv "Failed to authenticate with PowerBI", ctx, [])) ∧
    (∀ w did wid, get_dataset_schema ctx w did wid =
      (errEnv "Failed to authenticate with PowerBI", ctx, [])) ∧
    (∀ w did dax wid, query_dataset ctx w did dax wid =
      (errEnv "Failed to authenticate with PowerBI", ctx, [])) ∧
    (∀ w did wid, refresh_dataset ctx w did wid =
      (errEnv "Failed to authenticate with PowerBI", ctx, [])) ∧
    (∀ w did wid top, get_refresh_history ctx w did wid top =
      (errEnv "Failed to authenticate with PowerBI", ctx, [])) ∧
    (∀ w ws did rn, create_report ctx w ws did rn =
      (errEnv "Failed to authenticate with PowerBI", ctx, [])) ∧
    (∀ w wid, get_reports ctx w wid =
      (errEnv "Failed to authenticate with PowerBI", ctx, [])) ∧
    (∀ w did tn cn dax wid, create_calculated_column ctx w did tn cn dax wid =
      (errEnv "Failed to authenticate with PowerBI", ctx, [])) ∧
    (∀ w did tn mn dax wid, create_measure ctx w did tn mn dax wid =
      (errEnv "Failed to authenticate with PowerBI", ctx, [])) ∧
    (∀ w did wid, analyze_data_quality ctx w did wid =
      (errEnv "Failed to authenticate with PowerBI", ctx, [])) ∧
    (∀ w did tn wid mr, export_data_to_csv ctx w did tn wid mr =
      (errEnv "Failed to authenticate with PowerBI", ctx, [])) :=
  ⟨fun w => get_workspaces_no_creds ctx w h,
   fun w wid => get_datasets_no_creds ctx w wid h,
   fun w did wid => get_dataset_no_creds ctx w did wid h,
   fun w did wid => get_dataset_schema_no_creds ctx w did wid h,
   fun w did dax wid => query_dataset_no_creds ctx w did dax wid h,
   fun w did wid => refresh_dataset_no_creds ctx w did wid h,
   fun w did wid top => get_refresh_history_no_creds ctx w did wid top h,
   fun w ws did rn => create_report_no_creds ctx w ws did rn h,
   fun w wid => get_reports_no_creds ctx w wid h,
   fun w did tn cn dax wid =>
     create_calculated_column_no_creds ctx w did tn cn dax wid h,
   fun w did tn mn dax wid =>
     create_measure_no_creds ctx w did tn mn dax wid h,
   fun w did wid => analyze_data_quality_no_creds ctx w did wid h,
   fun w did tn wid mr => export_data_to_csv_no_creds ctx w did tn wid mr h⟩

/-- A context with the client secret missing (shared concrete fixture). -/
def ctxNoSecret : PowerBIContext :=
  { tenant_id := some "tenant", client_id := some "client"
  , client_secret := none }

theorem missing_credentials_fail_without_network_witness :
    credsTruthy ctxNoSecret = false ∧
      get_workspaces ctxNoSecret wOffline =
        (errEnv "Failed to authenticate with PowerBI", ctxNoSecret, []) :=
  ⟨rfl, (missing_credentials_fail_without_network ctxNoSecret rfl).1 wOffline⟩

/-- C3: with a token held (a non-empty cached token string — the only way a
token is ever stored, since only a configured client can have obtained one)
and the current time strictly before the recorded expiry, `authenticate`
returns success immediately, mutates nothing and issues no network request
at all; the subsequent `_make_request` issues exactly one API request whose
Authorization header carries exactly the cached token string, with no
token-exchange request.  In particular a second call before the stored
expiry issues zero token-exchange requests and yields the identical token. -/
theorem cached_token_short_circuit (ctx : PowerBIContext) (w : World)
    (t : String) (e : Int) (hcreds : credsTruthy ctx = true)
    (htok : ctx.access_token = some (Json.str t)) (hne : t ≠ "")
    (hexp : ctx.token_expires = some e) (hnow : w.now < e) :
    authenticate ctx w = (true, ctx, []) ∧
      ∀ m ep b p,
        (makeRequest ctx w m ep b p).2.1 = ctx ∧
        (makeRequest ctx w m ep b p).2.2 =
          [Event.apiReq ⟨m, ctx.base_url ++ ep,
            [("Authorization", "Bearer " ++ t),
             ("Content-Type", "application/json")], b, p⟩] := by
  have hcache : tokenCacheValid ctx w = true := by
    simp [tokenCacheValid, htok, hexp, jTruthy, hnow, hne]
  refine ⟨auth_cache_hit ctx w hcreds hcache, fun m ep b p => ?_⟩
  rw [makeRequest_cached ctx w m ep b p hcreds hcache]
  refine ⟨rfl, ?_⟩
  simp [mkApiRequest, bearerHeaders, htok, pyStrOptJson, pyStr]

theorem cached_token_short_circuit_witness :
    credsTruthy ctxTok = true ∧ ctxTok.access_token = some (Json.str "tok") ∧
      ctxTok.token_expires = some 100 ∧ wOffline.now < 100 ∧
      authenticate ctxTok wOffline = (true, ctxTok, []) ∧
      (makeRequest ctxTok wOffline "GET" "/groups" none none).2.2 =
        [Event.apiReq ⟨"GET", "https://api.powerbi.com/v1.0/myorg/groups",
          [("Authorization", "Bearer tok"),
           ("Content-Type", "application/json")], none, none⟩] := by
  have h := cached_token_short_circuit ctxTok wOffline "tok" 100 rfl rfl
    (by decide) rfl (by decide)
  exact ⟨rfl, rfl, rfl, by decide, h.1, (h.2 "GET" "/groups" none none).2⟩

/-- C5: when the cached-token check fails (no token held, no recorded
expiry, or current time at or past the expiry) and the token exchange
succeeds — a 2xx response (`raise_for_status` fails on anything else)
whose body carries `access_token`, and `expires_in` either a number or
absent (defaulting to 3600) — `authenticate` returns success having
issued exactly one token-exchange POST, with the stored token set to the
response's `access_token` and the expiry set to now + `expires_in` − 60
seconds. -/
theorem token_refresh_updates_state (ctx : PowerBIContext) (w : World)
    (resp : HttpResponse) (body tok : Json) (k : Int)
    (hcreds : credsTruthy ctx = true)
    (hstale : tokenCacheValid ctx w = false)
    (hresp : w.tokenApi (authRequest ctx) = .ok resp)
    (hstatus : 200 ≤ resp.status_code ∧ resp.status_code < 300)
    (hbody : resp.jsonBody = .ok body)
    (htok : pyIndex body "access_token" = .ok tok)
    (hexp : jlookup body "expires_in" = some (Json.num k) ∨
      (jlookup body "expires_in" = none ∧ k = 3600)) :
    authenticate ctx w =
      (true,
       { ctx with access_token := some tok,
                  token_expires := some (w.now + (k - 60)) },
       [Event.tokenReq (authRequest ctx)]) := by
  have hrs : raiseForStatus resp = .ok resp := by
    unfold raiseForStatus
    rw [if_pos hstatus]
  cases body with
  | obj kvs =>
    have hget : pyGetE (Json.obj kvs) "expires_in" (Json.num 3600) =
        .ok (Json.num k) := by
      rcases hexp with hsome | ⟨hnone, hk⟩
      · simp only [jlookup] at hsome
        simp [pyGetE, hsome]
      · simp only [jlookup] at hnone
        simp [pyGetE, hnone, hk]
    simp only [authenticate, hcreds, Bool.not_true, Bool.false_eq_true,
      if_false, hstale, hresp, hrs, hbody, htok, hget, pyNum]
  | null => simp [pyIndex] at htok
  | bool b => simp [pyIndex] at htok
  | num n => simp [pyIndex] at htok
  | str s => simp [pyIndex] at htok
  | arr xs => simp [pyIndex] at htok

/-- A context with credentials but no token yet (shared concrete fixture). -/
def ctxFresh : PowerBIContext :=
  { tenant_id := some "tenant", client_id := some "client"
  , client_secret := some "secret" }

/-- A world whose identity provider issues a token with `expires_in` 7200
(shared concrete fixture). -/
def wTokenOk : World :=
  { now := 1000
  , tokenApi := fun _ => .ok ⟨200,
      .ok (.obj [("access_token", .str "fresh"), ("expires_in", .num 7200)])⟩
  , api := fun _ => .error "offline" }

theorem token_refresh_updates_state_witness :
    credsTruthy ctxFresh = true ∧ tokenCacheValid ctxFresh wTokenOk = false ∧
      authenticate ctxFresh wTokenOk =
        (true,
         { ctxFresh with access_token := some (.str "fresh"),
                         token_expires := some 8140 },
         [Event.tokenReq (authRequest ctxFresh)]) := by
  have h := token_refresh_updates_state ctxFresh wTokenOk
    ⟨200, .ok (.obj [("access_token", .str "fresh"), ("expires_in", .num 7200)])⟩
    (.obj [("access_token", .str "fresh"), ("expires_in", .num 7200)])
    (.str "fresh") 7200 rfl rfl rfl ⟨by decide, by decide⟩ rfl rfl (.inl rfl)
  exact ⟨rfl, rfl, h⟩

/-- C10 (amended): a failed `authenticate` never touches the expiry
timestamp or the configured credentials, and leaves the whole state
unchanged when the failure is a transport error, a non-2xx status, an
undecodable body, or a body lacking `access_token`; but when the body
carries `access_token` together with a non-numeric `expires_in`, the
access token has already been overwritten when the failure is reported —
a partial update. -/
theorem authenticate_failure_state (ctx : PowerBIContext) (w : World)
    (ctx2 : PowerBIContext) (tr : List Event)
    (h : authenticate ctx w = (false, ctx2, tr)) :
    ctx2.token_expires = ctx.token_expires ∧
    ctx2.tenant_id = ctx.tenant_id ∧ ctx2.client_id = ctx.client_id ∧
    ctx2.client_secret = ctx.client_secret ∧ ctx2.base_url = ctx.base_url ∧
    (ctx2 = ctx ∨
      ∃ resp body tok,
        w.tokenApi (authRequest ctx) = .ok resp ∧
        (200 ≤ resp.status_code ∧ resp.status_code < 300) ∧
        resp.jsonBody = .ok body ∧ pyIndex body "access_token" = .ok tok ∧
        pyNum ((jlookup body "expires_in").getD (Json.num 3600)) = none ∧
        ctx2 = { ctx with access_token := some tok }) := by
  by_cases hc : credsTruthy ctx = true
  · by_cases hv : tokenCacheValid ctx w = true
    · rw [auth_cache_hit ctx w hc hv] at h
      simp at h
    · rw [Bool.not_eq_true] at hv
      unfold authenticate at h
      rw [hc, hv] at h
      simp only [Bool.not_true, Bool.false_eq_true, if_false] at h
      cases ht : w.tokenApi (authRequest ctx) with
      | error e =>
        rw [ht] at h
        cases h
        exact ⟨rfl, rfl, rfl, rfl, rfl, .inl rfl⟩
      | ok resp =>
        rw [ht] at h
        by_cases hs : 200 ≤ resp.status_code ∧ resp.status_code < 300
        · simp only [raiseForStatus, if_pos hs] at h
          cases hb : resp.jsonBody with
          | error e =>
            rw [hb] at h
            cases h
            exact ⟨rfl, rfl, rfl, rfl, rfl, .inl rfl⟩
          | ok body =>
            simp only [hb] at h
            cases hx : pyIndex body "access_token" with
            | error e =>
              simp only [hx] at h
              cases h
              exact ⟨rfl, rfl, rfl, rfl, rfl, .inl rfl⟩
            | ok tok =>
              simp only [hx] at h
              cases body with
              | obj kvs =>
                simp only [pyGetE] at h
                cases hn : pyNum ((kvs.lookup "expires_in").getD (Json.num 3600)) with
                | none =>
                  simp only [hn] at h
                  cases h
                  refine ⟨rfl, rfl, rfl, rfl, rfl, .inr ⟨resp, Json.obj kvs,
                    tok, rfl, hs, hb, hx, ?_, rfl⟩⟩
                  simpa [jlookup] using hn
                | some kk =>
                  simp only [hn] at h
                  cases h
              | null => simp [pyIndex] at hx
              | bool b => simp [pyIndex] at hx
              | num n => simp [pyIndex] at hx
              | str s => simp [pyIndex] at hx
              | arr xs => simp [pyIndex] at hx
        · simp only [raiseForStatus, if_neg hs] at h
          cases h
          exact ⟨rfl, rfl, rfl, rfl, rfl, .inl rfl⟩
  · rw [Bool.not_eq_true] at hc
    rw [authenticate_no_creds ctx w hc] at h
    cases h
    exact ⟨rfl, rfl, rfl, rfl, rfl, .inl rfl⟩

/-- A world whose identity provider answers 200 with a body carrying
`access_token` but a non-numeric `expires_in` (shared concrete fixture). -/
def wBadExpires : World :=
  { now := 0
  , tokenApi := fun _ => .ok ⟨200,
      .ok (.obj [("access_token", .str "tok2"), ("expires_in", .str "soon")])⟩
  , api := fun _ => .error "offline" }

/-- C10 counterexample: against a 200 token response whose `expires_in` is
the string `"soon"`, `authenticate` reports failure, yet the stored access
token — `none` before the call — has been overwritten with the response's
token: a failed refresh that partially updates the credential state. -/
theorem authenticate_partial_update_counterexample :
    (authenticate ctxFresh wBadExpires).1 = false ∧
    ctxFresh.access_token = none ∧
    (authenticate ctxFresh wBadExpires).2.1.access_token =
      some (Json.str "tok2") :=
  ⟨rfl, rfl, rfl⟩

theorem authenticate_failure_state_witness :
    authenticate ctxFresh wBadExpires =
      (false, { ctxFresh with access_token := some (Json.str "tok2") },
       [Event.tokenReq (authRequest ctxFresh)]) ∧
    ({ ctxFresh with access_token := some (Json.str "tok2") }
      : PowerBIContext).token_expires = ctxFresh.token_expires := by
  have h := authenticate_failure_state ctxFresh wBadExpires
    { ctxFresh with access_token := some (Json.str "tok2") }
    [Event.tokenReq (authRequest ctxFresh)] rfl
  exact ⟨rfl, h.1⟩

theorem authenticate_events (ctx : PowerBIContext) (w : World) :
    (authenticate ctx w).2.2 = [] ∨
      (authenticate ctx w).2.2 = [Event.tokenReq (authRequest ctx)] := by
  simp only [authenticate]
  repeat' split
  all_goals first
    | exact .inl rfl
    | exact .inr rfl

theorem authenticate_base_url (ctx : PowerBIContext) (w : World) :
    (authenticate ctx w).2.1.base_url = ctx.base_url := by
  simp only [authenticate]
  repeat' split
  all_goals rfl

theorem makeRequest_api_events (ctx : PowerBIContext) (w : World)
    (m ep : String) (b : Option Json) (p : Option (List (String × Json))) :
    ∀ ev ∈ (makeRequest ctx w m ep b p).2.2, ∀ req, ev = Event.apiReq req →
      req.method = m ∧ req.url = ctx.base_url ++ ep := by
  have hbase := authenticate_base_url ctx w
  have hev := authenticate_events ctx w
  rcases ha : authenticate ctx w with ⟨ok, ctx1, tr⟩
  rw [ha] at hbase hev
  simp only at hbase hev
  cases ok with
  | false =>
    simp only [makeRequest, ha]
    intro ev hmem req hreq
    rcases hev with h | h
    · rw [h] at hmem
      simp at hmem
    · rw [h] at hmem
      simp at hmem
      subst hmem
      cases hreq
  | true =>
    simp only [makeRequest, ha]
    intro ev hmem req hreq
    rw [List.mem_append] at hmem
    rcases hmem with hmem | hmem
    · rcases hev with h | h
      · rw [h] at hmem
        simp at hmem
      · rw [h] at hmem
        simp at hmem
        subst hmem
        cases hreq
    · simp at hmem
      subst hmem
      cases hreq
      exact ⟨rfl, by simp [mkApiRequest, bearerHeaders, hbase]⟩

/-- C6: `get_datasets` with a workspace identifier W targets the path
`/groups/W/datasets`, and with no workspace identifier `/datasets`: in any
state, every analytics request the call issues is a GET against exactly
that path (a failed authentication issues none, and a refresh adds only a
token-exchange request); and whenever a live cached token lets the call
proceed directly, its trace is exactly one such GET. -/
theorem get_datasets_scoping (ctx : PowerBIContext) (w : World) (W : String)
    (hW : W ≠ "") :
    (∀ ev ∈ (get_datasets ctx w (some W)).2.2, ∀ req, ev = Event.apiReq req →
      req.method = "GET" ∧
      req.url = ctx.base_url ++ "/groups/" ++ W ++ "/datasets") ∧
    (∀ ev ∈ (get_datasets ctx w none).2.2, ∀ req, ev = Event.apiReq req →
      req.method = "GET" ∧ req.url = ctx.base_url ++ "/datasets") ∧
    (credsTruthy ctx = true → tokenCacheValid ctx w = true →
      (∃ req : ApiRequest,
        (get_datasets ctx w (some W)).2.2 = [Event.apiReq req] ∧
        req.method = "GET" ∧
        req.url = ctx.base_url ++ "/groups/" ++ W ++ "/datasets") ∧
      (∃ req : ApiRequest,
        (get_datasets ctx w none).2.2 = [Event.apiReq req] ∧
        req.method = "GET" ∧ req.url = ctx.base_url ++ "/datasets")) := by
  have hw : strTruthy (some W) = true := by simpa [strTruthy] using hW
  refine ⟨?_, ?_, fun hcreds hcache => ⟨?_, ?_⟩⟩
  · simp only [get_datasets, hw, if_true, Option.getD]
    intro ev hmem req hreq
    rw [wrap_state] at hmem
    obtain ⟨hm, hu⟩ := makeRequest_api_events ctx w "GET"
      ("/groups/" ++ W ++ "/datasets") none none ev hmem req hreq
    refine ⟨hm, ?_⟩
    rw [hu]
    simp [String.append_assoc]
  · simp only [get_datasets, strTruthy, Bool.false_eq_true, if_false]
    intro ev hmem req hreq
    rw [wrap_state] at hmem
    exact makeRequest_api_events ctx w "GET" "/datasets" none none
      ev hmem req hreq
  · refine ⟨mkApiRequest ctx "GET" ("/groups/" ++ W ++ "/datasets") none none,
      ?_, rfl, ?_⟩
    · simp only [get_datasets, hw, if_true, Option.getD]
      rw [wrap_state, makeRequest_cached ctx w "GET"
        ("/groups/" ++ W ++ "/datasets") none none hcreds hcache]
    · simp [mkApiRequest, String.append_assoc]
  · refine ⟨mkApiRequest ctx "GET" "/datasets" none none, ?_, rfl, rfl⟩
    simp only [get_datasets, strTruthy, Bool.false_eq_true, if_false]
    rw [wrap_state, makeRequest_cached ctx w "GET" "/datasets" none none
      hcreds hcache]

theorem get_datasets_scoping_witness :
    ("W1" : String) ≠ "" ∧ credsTruthy ctxTok = true ∧
    tokenCacheValid ctxTok wOffline = true ∧
    (∃ req : ApiRequest,
      (get_datasets ctxTok wOffline (some "W1")).2.2 = [Event.apiReq req] ∧
      req.method = "GET" ∧
      req.url = ctxTok.base_url ++ "/groups/" ++ "W1" ++ "/datasets") ∧
    (∃ req : ApiRequest,
      (get_datasets ctxTok wOffline none).2.2 = [Event.apiReq req] ∧
      req.method = "GET" ∧ req.url = ctxTok.base_url ++ "/datasets") := by
  have h := get_datasets_scoping ctxTok wOffline "W1" (by decide)
  have hc := h.2.2 rfl rfl
  exact ⟨by decide, rfl, rfl, hc.1, hc.2⟩

@[simp] theorem slookup_nil (k : String) :
    List.lookup k ([] : List (String × Json)) = none := rfl

@[simp] theorem slookup_cons (k k' : String) (v : Json)
    (l : List (String × Json)) :
    List.lookup k ((k', v) :: l) = if k = k' then some v else List.lookup k l := by
  by_cases h : k = k'
  · subst h; simp [List.lookup]
  · have hb : (k == k') = false := by simpa using h
    simp [List.lookup, hb, h]

theorem pyIndex_of_jlookup (j : Json) (k : String) (v : Json)
    (h : jlookup j k = some v) : pyIndex j k = .ok v := by
  cases j with
  | obj kvs => simp only [jlookup] at h; simp [pyIndex, h]
  | null => simp [jlookup] at h
  | bool b => simp [jlookup] at h
  | num n => simp [jlookup] at h
  | str s => simp [jlookup] at h
  | arr xs => simp [jlookup] at h

theorem serializeRows_eq (cols : List String) (rows : List Json)
    (hobj : ∀ r ∈ rows, ∃ kvs, r = Json.obj kvs) :
    serializeRows cols rows = .ok (rows.map (specLine cols)) := by
  induction rows with
  | nil => rfl
  | cons r rest ih =>
    obtain ⟨kvs, rfl⟩ := hobj r (List.mem_cons_self r rest)
    have ih' := ih (fun r hr => hobj r (List.mem_cons_of_mem _ hr))
    simp only [serializeRows, ih', exceptBindOk, exceptPure, List.map_cons]
    rfl

/-- C7: for every non-empty row sequence delivered by the export query at
the fixed extraction path, `export_data_to_csv` returns success with the
column order derived from the key order of the first row, the content
being a comma-joined header line followed by one comma-joined serialized
line per row (as `specCsvContent` states it from the spec's words), a
`row_count` equal to the number of rows and a `column_count` equal to the
number of columns. -/
theorem export_csv_nonempty (ctx : PowerBIContext) (w : World)
    (did tname : String) (wid : Option String) (mr : Int) (B : Json)
    (rows : List Json)
    (hsucc : jlookup (query_dataset ctx w did (exportDax mr tname) wid).1
      "success" = some (Json.bool true))
    (hres : jlookup (query_dataset ctx w did (exportDax mr tname) wid).1
      "result" = some B)
    (hrows : extractRowsJ B = .ok (Json.arr rows))
    (hne : rows ≠ [])
    (hobj : ∀ r ∈ rows, ∃ kvs, r = Json.obj kvs) :
    (export_data_to_csv ctx w did tname wid mr).1 =
      Json.obj [("success", .bool true),
        ("csv_content", .str (specCsvContent rows)),
        ("row_count", .num (rows.length : Int)),
        ("column_count", .num ((specCsvColumns rows).length : Int)),
        ("table_name", .str tname)] := by
  have hshape := query_dataset_shape ctx w did (exportDax mr tname) wid
  rcases hq : query_dataset ctx w did (exportDax mr tname) wid with
    ⟨queryRes, ctx1, tr1⟩
  rw [hq] at hshape hsucc hres
  rcases hshape with ⟨res, hlit⟩ | ⟨e, hlit⟩
  · simp only at hlit
    subst hlit
    simp only at hres
    simp at hres
    subst hres
    simp only [export_data_to_csv, hq]
    have h1 : jlookup (Json.obj [("success", Json.bool true),
        ("query", Json.str (exportDax mr tname)), ("result", res),
        ("dataset_id", Json.str did)]) "success" = some (Json.bool true) := by
      simp
    have h2 : pyIndex (Json.obj [("success", Json.bool true),
        ("query", Json.str (exportDax mr tname)), ("result", res),
        ("dataset_id", Json.str did)]) "result" = .ok res :=
      pyIndex_of_jlookup _ _ _ (by simp)
    simp only [h1, jTruthy, Bool.not_true, Bool.false_eq_true, if_false, h2,
      exceptBindOk, hrows]
    cases rows with
    | nil => exact absurd rfl hne
    | cons r0 rest =>
      obtain ⟨kvs0, rfl⟩ := hobj r0 (List.mem_cons_self r0 rest)
      simp only [jTruthy, List.isEmpty_cons, Bool.not_false, if_true,
        pyIndexNat, List.get?]
      rw [serializeRows_eq _ _ hobj]
      simp only [specCsvContent, specCsvColumns]
  · simp only at hlit
    subst hlit
    simp [errEnv] at hsucc

/-- The two clean example rows of the spec (shared concrete fixture). -/
def csvRows : List Json :=
  [.obj [("x", .str "1"), ("y", .str "2")],
   .obj [("x", .str "3"), ("y", .str "4")]]

/-- A query-result body holding the given rows at the fixed path
`results[0].tables[0].rows` (shared concrete fixture). -/
def resultBody (rows : List Json) : Json :=
  .obj [("results", .arr [.obj [("tables", .arr [.obj [("rows", .arr rows)]])]])]

/-- A world whose analytics service answers every query with the given
rows (shared concrete fixture). -/
def wRows (rows : List Json) : World :=
  { now := 0, tokenApi := fun _ => .error "offline"
  , api := fun _ => .ok ⟨200, .ok (resultBody rows)⟩ }

theorem export_csv_nonempty_witness :
    (export_data_to_csv ctxTok (wRows csvRows) "d" "T" none 1000).1 =
      Json.obj [("success", .bool true),
        ("csv_content", .str "x,y\n1,2\n3,4"),
        ("row_count", .num 2), ("column_count", .num 2),
        ("table_name", .str "T")] := by
  have h := export_csv_nonempty ctxTok (wRows csvRows) "d" "T" none 1000
    (resultBody csvRows) csvRows rfl rfl rfl
    (by simp [csvRows])
    (by
      intro r hr
      simp only [csvRows, List.mem_cons, List.not_mem_nil, or_false] at hr
      rcases hr with rfl | rfl
      · exact ⟨_, rfl⟩
      · exact ⟨_, rfl⟩)
  rw [h]
  rfl

/-- A world returning a single row whose only cell contains a comma
(shared concrete fixture). -/
def wCommaRow : World := wRows [.obj [("x", .str "a,b")]]

/-- C8: each CSV cell is the stringified value with every comma replaced
by a semicolon: a cell holding the string `"a,b"` serializes to `"a;b"`,
so two distinct values (`"a,b"` and `"a;b"`) serialize identically — the
escaping is lossy by design; a full export of such a row yields
`"x\na;b"`. -/
theorem csv_cell_comma_substitution :
    (∀ (row : List (String × Json)) (c s : String),
      row.lookup c = some (Json.str s) →
      serializeCell row c = replaceCommas s) ∧
    serializeCell [("x", Json.str "a,b")] "x" = "a;b" ∧
    Json.str "a,b" ≠ Json.str "a;b" ∧
    serializeCell [("x", Json.str "a,b")] "x" =
      serializeCell [("x", Json.str "a;b")] "x" ∧
    (export_data_to_csv ctxTok wCommaRow "d" "T" none 1000).1 =
      Json.obj [("success", .bool true), ("csv_content", .str "x\na;b"),
        ("row_count", .num 1), ("column_count", .num 1),
        ("table_name", .str "T")] := by
  refine ⟨?_, rfl, ?_, rfl, rfl⟩
  · intro row c s h
    simp [serializeCell, h, pyStr]
  · intro h
    injection h with h2
    exact absurd h2 (by decide)

theorem csv_cell_comma_substitution_witness :
    List.lookup "x" [("x", Json.str "a,b")] = some (Json.str "a,b") ∧
    serializeCell [("x", Json.str "a,b")] "x" = replaceCommas "a,b" :=
  ⟨rfl, csv_cell_comma_substitution.1 [("x", Json.str "a,b")] "x" "a,b" rfl⟩

/-- C9 (amended): when the export query succeeds and the extracted row
sequence is empty, `export_data_to_csv` returns success with an empty
content string, a zero `row_count`, and a `"No data found in table"`
message — but no `column_count` field (the claim's "zero column count" is
not reported). -/
theorem export_csv_empty (ctx : PowerBIContext) (w : World)
    (did tname : String) (wid : Option String) (mr : Int) (B : Json)
    (hsucc : jlookup (query_dataset ctx w did (exportDax mr tname) wid).1
      "success" = some (Json.bool true))
    (hres : jlookup (query_dataset ctx w did (exportDax mr tname) wid).1
      "result" = some B)
    (hrows : extractRowsJ B = .ok (Json.arr [])) :
    (export_data_to_csv ctx w did tname wid mr).1 =
      Json.obj [("success", .bool true), ("csv_content", .str ""),
        ("row_count", .num 0),
        ("message", .str "No data found in table")] := by
  have hshape := query_dataset_shape ctx w did (exportDax mr tname) wid
  rcases hq : query_dataset ctx w did (exportDax mr tname) wid with
    ⟨queryRes, ctx1, tr1⟩
  rw [hq] at hshape hsucc hres
  rcases hshape with ⟨res, hlit⟩ | ⟨e, hlit⟩
  · simp only at hlit
    subst hlit
    simp only at hres
    simp at hres
    subst hres
    simp only [export_data_to_csv, hq]
    have h1 : jlookup (Json.obj [("success", Json.bool true),
        ("query", Json.str (exportDax mr tname)), ("result", res),
        ("dataset_id", Json.str did)]) "success" = some (Json.bool true) := by
      simp
    have h2 : pyIndex (Json.obj [("success", Json.bool true),
        ("query", Json.str (exportDax mr tname)), ("result", res),
        ("dataset_id", Json.str did)]) "result" = .ok res :=
      pyIndex_of_jlookup _ _ _ (by simp)
    simp only [h1, jTruthy, Bool.not_true, Bool.false_eq_true, if_false, h2,
      exceptBindOk, hrows, List.isEmpty_nil, if_false]
  · simp only at hlit
    subst hlit
    simp [errEnv] at hsucc

/-- C9 counterexample: on an empty extracted row sequence the envelope is
a success with empty content and zero `row_count`, but it contains no
`column_count` field at all — the claim's "reports … a zero column count"
fails on the code, which emits a `message` field instead. -/
theorem export_csv_empty_counterexample :
    jlookup (export_data_to_csv ctxTok (wRows []) "d" "T" none 1000).1
        "success" = some (Json.bool true) ∧
    jlookup (export_data_to_csv ctxTok (wRows []) "d" "T" none 1000).1
        "csv_content" = some (Json.str "") ∧
    jlookup (export_data_to_csv ctxTok (wRows []) "d" "T" none 1000).1
        "row_count" = some (Json.num 0) ∧
    jlookup (export_data_to_csv ctxTok (wRows []) "d" "T" none 1000).1
        "column_count" = none :=
  ⟨rfl, rfl, rfl, rfl⟩

theorem export_csv_empty_witness :
    (export_data_to_csv ctxTok (wRows []) "d" "T" none 1000).1 =
      Json.obj [("success", .bool true), ("csv_content", .str ""),
        ("row_count", .num 0),
        ("message", .str "No data found in table")] :=
  export_csv_empty ctxTok (wRows []) "d" "T" none 1000 (resultBody [])
    rfl rfl rfl

theorem makeRequest_cached_all (ctx : PowerBIContext) (w : World)
    (hc : credsTruthy ctx = true) (ht : tokenCacheValid ctx w = true) :
    ∀ (m ep : String) (b : Option Json) (p : Option (List (String × Json))),
      makeRequest ctx w m ep b p =
        (doRequest w (mkApiRequest ctx m ep b p), ctx,
         [.apiReq (mkApiRequest ctx m ep b p)]) :=
  fun m ep b p => makeRequest_cached ctx w m ep b p hc ht

theorem query_dataset_state (ctx : PowerBIContext) (w : World)
    (did dax : String) (wid : Option String)
    (hcreds : credsTruthy ctx = true) (hcache : tokenCacheValid ctx w = true) :
    (query_dataset ctx w did dax wid).2.1 = ctx := by
  simp only [query_dataset]
  rw [wrap_state, makeRequest_cached_all ctx w hcreds hcache]

theorem dinsert_append (acc : List (String × Json)) (k : String) (v : Json)
    (h : acc.lookup k = none) : dinsert acc k v = acc ++ [(k, v)] := by
  induction acc with
  | nil => rfl
  | cons hd tl ih =>
    rcases hd with ⟨k', v'⟩
    rw [slookup_cons] at h
    by_cases hk : k = k'
    · rw [if_pos hk] at h; cases h
    · rw [if_neg hk] at h
      have hb : (k' == k) = false := by simpa using (Ne.symm hk)
      simp [dinsert, hb, ih h]

theorem lookup_append_none (l1 l2 : List (String × Json)) (k : String)
    (h1 : l1.lookup k = none) (h2 : l2.lookup k = none) :
    (l1 ++ l2).lookup k = none := by
  induction l1 with
  | nil => simpa using h2
  | cons hd tl ih =>
    rcases hd with ⟨k', v'⟩
    rw [slookup_cons] at h1
    by_cases hk : k = k'
    · rw [if_pos hk] at h1; cases h1
    · rw [if_neg hk] at h1
      simp only [List.cons_append, slookup_cons, if_neg hk]
      exact ih h1

theorem analyzeTables_run (w : World) (did : String) (wid : Option String)
    (ctx : PowerBIContext) (hcreds : credsTruthy ctx = true)
    (hcache : tokenCacheValid ctx w = true) :
    ∀ (ts : List Json) (names : List String),
      List.Forall₂
        (fun t nm => pyIndex t "name" = Except.ok (Json.str nm)) ts names →
      names.Nodup →
      ∀ (tr : List Event) (acc : List (String × Json)),
      (∀ nm ∈ names, acc.lookup nm = none) →
      ∃ tr2, analyzeTables w did wid ts ctx tr acc =
        (Except.ok (acc ++ List.zipWith
          (fun t nm => (nm, tableEntry w ctx did wid t nm)) ts names),
         ctx, tr2) := by
  intro ts names hf
  induction hf with
  | nil =>
    intro _ tr acc _
    exact ⟨tr, by simp [analyzeTables]⟩
  | @cons t nm ts' names' ht hrest ih =>
    intro hnodup tr acc hacc
    rcases hq : query_dataset ctx w did (rowCountQuery nm) wid with
      ⟨countRes, ctxq, trq⟩
    have hctxq : ctxq = ctx := by
      have hh := query_dataset_state ctx w did (rowCountQuery nm) wid
        hcreds hcache
      rw [hq] at hh
      exact hh
    rw [hctxq] at hq
    have hmem : acc.lookup nm = none := hacc nm (List.mem_cons_self _ _)
    have hnodup' := List.nodup_cons.mp hnodup
    obtain ⟨tr2, hrun⟩ := ih hnodup'.2 (tr ++ trq)
      (acc ++ [(nm, entryOfCount t countRes)])
      (fun nm' hm =>
        lookup_append_none _ _ _ (hacc nm' (List.mem_cons_of_mem _ hm))
          (by
            rw [slookup_cons,
              if_neg (fun hh : nm' = nm => hnodup'.1 (hh ▸ hm))]
            rfl))
    refine ⟨tr2, ?_⟩
    simp only [analyzeTables, ht, hq]
    rw [dinsert_append _ _ _ hmem, hrun]
    have hentry : entryOfCount t countRes = tableEntry w ctx did wid t nm := by
      simp only [tableEntry, hq]
    rw [hentry]
    simp [List.append_assoc]

/-- C1 (amended): for a dataset whose schema fetch succeeds (a success
envelope carrying the table list, the state untouched thanks to the live
cached token) and whose tables bear pairwise-distinct string names,
`analyze_data_quality` returns an overall-success envelope whose
`quality_analysis` holds exactly one entry per table, keyed by the table's
name, in the order the service returned the tables; each entry is
`tableEntry` — the row count at the fixed extraction path with column and
measure counts when that table's query succeeds, an error message when the
query or the extraction fails — so no single table's outcome affects the
overall envelope or the other tables' entries. -/
theorem analyze_quality_per_table (ctx : PowerBIContext) (w : World)
    (did : String) (wid : Option String) (di : Json) (tables : List Json)
    (names : List String) (trs : List Event)
    (hcreds : credsTruthy ctx = true) (hcache : tokenCacheValid ctx w = true)
    (hschema : get_dataset_schema ctx w did wid =
      (Json.obj [("success", Json.bool true), ("dataset_info", di),
        ("tables", Json.arr tables), ("dataset_id", Json.str did)], ctx, trs))
    (hnames : List.Forall₂
      (fun t nm => pyIndex t "name" = Except.ok (Json.str nm)) tables names)
    (hnodup : names.Nodup) :
    ∃ tr, analyze_data_quality ctx w did wid =
      (Json.obj [("success", .bool true), ("dataset_id", .str did),
        ("quality_analysis", .obj (List.zipWith
          (fun t nm => (nm, tableEntry w ctx did wid t nm)) tables names)),
        ("total_tables", .num (tables.length : Int))], ctx, tr) := by
  simp only [analyze_data_quality, hschema]
  have h1 : jlookup (Json.obj [("success", Json.bool true),
      ("dataset_info", di), ("tables", Json.arr tables),
      ("dataset_id", Json.str did)]) "success" = some (Json.bool true) := by
    simp
  have h2 : pyIndex (Json.obj [("success", Json.bool true),
      ("dataset_info", di), ("tables", Json.arr tables),
      ("dataset_id", Json.str did)]) "tables" = .ok (Json.arr tables) :=
    pyIndex_of_jlookup _ _ _ (by simp)
  simp only [h1, jTruthy, Bool.not_true, Bool.false_eq_true, if_false, h2]
  obtain ⟨tr2, hrun⟩ := analyzeTables_run w did wid ctx hcreds hcache
    tables names hnames hnodup trs [] (fun _ _ => rfl)
  rw [hrun]
  exact ⟨tr2, rfl⟩

/-- A schema table named `A` with no column or measure lists (shared
concrete fixture). -/
def tableA1 : Json := .obj [("name", .str "A")]

/-- A second schema table also named `A`, carrying one column (shared
concrete fixture). -/
def tableA2 : Json := .obj [("name", .str "A"), ("columns", .arr [.obj []])]

/-- A schema table named `B` (shared concrete fixture). -/
def tableB : Json := .obj [("name", .str "B")]

/-- A world whose dataset `d` reports two tables both named `A` and whose
query endpoint always answers with a row count of 10 (shared concrete
fixture). -/
def wDup : World :=
  { now := 0, tokenApi := fun _ => .error "offline"
  , api := fun req =>
      if req.url = "https://api.powerbi.com/v1.0/myorg/datasets/d" then
        .ok ⟨200, .ok (.obj [("name", .str "ds")])⟩
      else if req.url = "https://api.powerbi.com/v1.0/myorg/datasets/d/tables"
      then
        .ok ⟨200, .ok (.obj [("value", .arr [tableA1, tableA2])])⟩
      else
        .ok ⟨200, .ok (resultBody [.obj [("[RowCount]", .num 10)]])⟩ }

/-- C1 counterexample: a schema listing two tables (both named `A`, both
row-count queries succeeding) yields a `quality_analysis` with a single
entry — the second table's figures overwrote the first's under the shared
dictionary key — while `total_tables` reports 2, so the envelope does not
contain one entry per table in the schema. -/
theorem analyze_duplicate_names_counterexample :
    jlookup (analyze_data_quality ctxTok wDup "d" none).1 "success" =
      some (Json.bool true) ∧
    jlookup (analyze_data_quality ctxTok wDup "d" none).1 "total_tables" =
      some (Json.num 2) ∧
    jlookup (analyze_data_quality ctxTok wDup "d" none).1 "quality_analysis" =
      some (Json.obj [("A", Json.obj [("row_count", Json.num 10),
        ("columns", Json.num 1), ("measures", Json.num 0)])]) ∧
    ([("A", Json.obj [("row_count", Json.num 10), ("columns", Json.num 1),
      ("measures", Json.num 0)])] : List (String × Json)).length = 1 :=
  ⟨rfl, rfl, rfl, rfl⟩

/-- A world whose dataset `d` has tables `A` and `B`, where only table
`A`'s row-count query succeeds — `B`'s raises a transport error (shared
concrete fixture). -/
def wAB : World :=
  { now := 0, tokenApi := fun _ => .error "offline"
  , api := fun req =>
      match req.body with
      | none =>
        if req.url = "https://api.powerbi.com/v1.0/myorg/datasets/d/tables"
        then .ok ⟨200, .ok (.obj [("value", .arr [tableA1, tableB])])⟩
        else .ok ⟨200, .ok (.obj [("name", .str "ds")])⟩
      | some b =>
        match jlookup b "queries" with
        | some (Json.arr [q1]) =>
          match jlookup q1 "query" with
          | some (Json.str q) =>
            if q = rowCountQuery "A" then
              .ok ⟨200, .ok (resultBody [.obj [("[RowCount]", .num 10)]])⟩
            else .error "connection reset"
          | _ => .error "bad request"
        | _ => .error "bad request" }

theorem analyze_quality_per_table_witness :
    ∃ tr, analyze_data_quality ctxTok wAB "d" none =
      (Json.obj [("success", .bool true), ("dataset_id", .str "d"),
        ("quality_analysis", .obj
          [("A", Json.obj [("row_count", Json.num 10), ("columns", Json.num 0),
            ("measures", Json.num 0)]),
           ("B", Json.obj [("error", Json.str "Could not analyze table")])]),
        ("total_tables", .num 2)], ctxTok, tr) := by
  obtain ⟨tr, h⟩ := analyze_quality_per_table ctxTok wAB "d" none
    (Json.obj [("name", Json.str "ds")]) [tableA1, tableB] ["A", "B"]
    [Event.apiReq (mkApiRequest ctxTok "GET" "/datasets/d" none none),
     Event.apiReq (mkApiRequest ctxTok "GET" "/datasets/d/tables" none none)]
    rfl rfl rfl
    (List.Forall₂.cons rfl (List.Forall₂.cons rfl List.Forall₂.nil))
    (by simp)
  exact ⟨tr, by rw [h]; rfl⟩
